import Mathlib

set_option maxHeartbeats 1000000

namespace Sanctum

/-- Modelled from the spec: the helper `trimTrailingSlash` from
`runtime/utils/formatter` is imported by the composables but its file is not
among the given sources. Per the spec it normalizes a path by stripping a
trailing slash, except for the root path `/`. -/
def trimTrailingSlash (p : String) : String :=
  if p = "/" then p
  else if p.data.getLast? = some '/' then String.mk p.data.dropLast else p

/-- Authentication mode of the module (`ModuleOptions.mode`): cookie or token. -/
inductive AuthMode where
  | cookie
  | token
deriving DecidableEq, Repr

/-- A redirect configuration slot, of TypeScript type `string | false | undefined`
(see `RedirectOptions` in the options type declarations). -/
inductive RedirectValue where
  | unset
  | disabled
  | path (p : String)
deriving DecidableEq, Repr

/-- JavaScript truthiness of a redirect slot value: a non-empty string is truthy,
`false` and `undefined` are falsy (the empty string is falsy as well). -/
def truthyRV : RedirectValue → Bool
  | RedirectValue.path p => p ≠ ""
  | _ => false

/-- The user identity record, after `BaseUser` of useSanctumAuth.ts (lines 28-36).
Date values are opaque strings here; `email_verified_at` can be absent (null from
the backend) and `two_factor_confirmed_at` is optional. -/
structure Identity where
  id : Nat
  name : String
  email : String
  email_verified_at : Option String
  two_factor_confirmed_at : Option String
  created_at : String
  updated_at : String
deriving DecidableEq, Repr

/-- `TokenResponse` of useSanctumAuth.ts (lines 38-41): `{token?: string, two_factor?: boolean}`. -/
structure TokenResponse where
  token : Option String
  two_factor : Option Bool
deriving DecidableEq, Repr

/-- Login credentials. The source passes an arbitrary record to the login endpoint
and reads only its `password` field (useSanctumAuth.ts line 138); the password is
the one component the control flow depends on. -/
structure Credentials where
  password : String
deriving DecidableEq, Repr

/-- Credentials of the two-factor challenge / confirmation endpoints:
`{code?: string, recovery_code?: string}`. -/
structure ChallengeCreds where
  code : Option String
  recovery_code : Option String
deriving DecidableEq, Repr

/-- Errors thrown by the composables: plain `new Error(message)` strings, and
`createError({statusCode})` used by the route middleware. -/
inductive Err where
  | jsError (msg : String)
  | statusError (code : Nat)
deriving DecidableEq, Repr

/-- Observable effects of one composable execution, in program order: network
requests per endpoint, token-storage writes, and navigations. -/
inductive Event where
  | fetchUser
  | postLogin (credentials : Credentials)
  | postTwoFactorChallenge (credentials : ChallengeCreds)
  | postTwoFactorConfirm (credentials : ChallengeCreds)
  | postTwoFactorEnable
  | postConfirmPassword (password : String)
  | getTwoFactorQr
  | recoveryCodesGet
  | recoveryCodesPost
  | postLogout
  | tokenSet (t : Option String)
  | navigate (p : String)
deriving DecidableEq, Repr

/-- Whether an event is a navigation. -/
def isNavigate : Event → Bool
  | Event.navigate _ => true
  | _ => false

/-- The endpoints configuration (`SanctumEndpoints`), each slot possibly undefined,
matching the `=== undefined` checks in the composables. -/
structure SanctumEndpoints where
  csrf : Option String
  login : Option String
  two_factor_enable : Option String
  two_factor_qr_code : Option String
  two_factor_challenge : Option String
  two_factor_recovery_codes : Option String
  two_factor_confirm : Option String
  two_factor_disable : Option String
  confirm_password : Option String
  logout : Option String
  user : Option String
deriving DecidableEq, Repr

/-- Two-factor options as read by the composables (`options.twoFactor.enforce`)
and defaulted in config.ts. -/
structure TwoFactorOptions where
  enforce : Bool
  confirm : Bool
  confirmPassword : Bool
deriving DecidableEq, Repr

/-- The eight redirect slots plus `keepRequestedRoute` (`RedirectOptions`). -/
structure RedirectOptions where
  keepRequestedRoute : Bool
  onLogin : RedirectValue
  onLoginWithTwoFactor : RedirectValue
  onLoginWithConfigureTwoFactor : RedirectValue
  toRecoveryCodesOnConfirmingTwoFactor : RedirectValue
  onLogout : RedirectValue
  onAuthOnly : RedirectValue
  onGuestOnly : RedirectValue
  onTwoFactorOnly : RedirectValue
deriving DecidableEq, Repr

/-- The resolved module configuration, restricted to the fields the runtime
composables in the sources actually read (`options.mode`,
`options.redirectIfAuthenticated`, `options.redirectIfUnauthenticated`,
`options.twoFactor`, `options.endpoints`, `options.redirect`). -/
structure SanctumConfig where
  mode : AuthMode
  redirectIfAuthenticated : Bool
  redirectIfUnauthenticated : Bool
  twoFactor : TwoFactorOptions
  endpoints : SanctumEndpoints
  redirect : RedirectOptions
deriving DecidableEq, Repr

/-- Mutable client-side session state: the cached identity (`useSanctumUser`
state), the one-shot identity-loaded latch, the token-storage content, and the
current route (path plus its `redirect` query parameter). -/
structure AppState where
  user : Option Identity
  identityLoaded : Bool
  tokenStorage : Option String
  routePath : String
  routeQueryRedirect : Option String
deriving DecidableEq, Repr

/-- Responses the backend collaborator gives to each endpoint call within one
observed execution; `Except.error` means the HTTP call rejects. -/
structure Backend where
  loginResp : Except Err TokenResponse
  challengeResp : Except Err TokenResponse
  confirmTwoFactorResp : Except Err TokenResponse
  userResp : Except Err Identity
  qrResp : Except Err (Option String)
  recoveryGetResp : Except Err (List String)
  recoveryPostResp : Except Err (List String)
  confirmPasswordResp : Except Err Unit
  enableResp : Except Err Unit
  logoutResp : Except Err Unit

/-- The ambient environment of a composable: the resolved options, whether
`appConfig.tokenStorage` is defined, and the backend responses. -/
structure Env where
  options : SanctumConfig
  tokenStorageDefined : Bool
  backend : Backend

/-- Result of running one composable: final state, emitted events in order, and
either a returned value or a thrown error. -/
inductive Res (α : Type) where
  | ok (st : AppState) (trace : List Event) (val : α)
  | thrown (st : AppState) (trace : List Event) (e : Err)
deriving DecidableEq, Repr

/-- A state-threading, trace-emitting, exception-propagating computation. -/
def Exec (α : Type) : Type :=
  AppState → Res α

/-- Return a value without touching state or emitting events. -/
def pureE {α : Type} (a : α) : Exec α :=
  fun st => Res.ok st [] a

/-- Throw an error (a `throw new Error(...)` in the source). -/
def throwE {α : Type} (e : Err) : Exec α :=
  fun st => Res.thrown st [] e

/-- Read the current state. -/
def getState : Exec AppState :=
  fun st => Res.ok st [] st

/-- Update the state. -/
def modifyState (f : AppState → AppState) : Exec Unit :=
  fun st => Res.ok (f st) [] ()

/-- Sequencing: a thrown error short-circuits, traces concatenate in order. -/
def bindE {α β : Type} (x : Exec α) (f : α → Exec β) : Exec β :=
  fun st =>
    match x st with
    | Res.ok st1 tr1 a =>
      match f a st1 with
      | Res.ok st2 tr2 b => Res.ok st2 (tr1 ++ tr2) b
      | Res.thrown st2 tr2 e => Res.thrown st2 (tr1 ++ tr2) e
    | Res.thrown st1 tr1 e => Res.thrown st1 tr1 e

/-- Issue a network request: emit its event, then return the backend response or
propagate its rejection. -/
def call {α : Type} (ev : Event) (resp : Except Err α) : Exec α :=
  fun st =>
    match resp with
    | Except.ok a => Res.ok st [ev] a
    | Except.error e => Res.thrown st [ev] e

/-- `await navigateTo(path)` with a plain string target: emits the navigation and
moves the current route to that path (which carries no `redirect` query). -/
def navigateTo (p : String) : Exec Unit :=
  fun st => Res.ok { st with routePath := p, routeQueryRedirect := none } [Event.navigate p] ()

/-- `appConfig.tokenStorage.set(nuxtApp, v)`. -/
def tokenStorageSet (v : Option String) : Exec Unit :=
  fun st => Res.ok { st with tokenStorage := v } [Event.tokenSet v] ()

/-- `currentPath` computed of useSanctumAuth.ts (lines 72-74): the current route
path with the trailing slash trimmed. -/
def currentPath (st : AppState) : String :=
  trimTrailingSlash st.routePath

/-- `isAuthenticated` computed (lines 56-58): `!!user.value`. -/
def isAuthenticated (user : Option Identity) : Bool :=
  user.isSome

/-- `isAuthenticatedWithTwoFactor` computed (lines 64-66). The conjunct
`isAuthenticated` in the source is the ref object itself (always truthy), so the
computed value is the truthiness of `user.value?.two_factor_confirmed_at`. -/
def isAuthenticatedWithTwoFactor (user : Option Identity) : Bool :=
  match user with
  | some u => u.two_factor_confirmed_at.isSome
  | none => false

/-- The redirect block repeated at every policy-resolution site of
useSanctumAuth.ts, e.g. lines 112-125: on `value === false` or
`value === cmpPath` the caller must stop (`return`); on `undefined` an error is
thrown; otherwise the target is navigated to and the caller falls through.
Returns `true` when the caller must stop. -/
def redirectCheck (v : RedirectValue) (cmpPath : String) (msg : String) : Exec Bool :=
  match v with
  | RedirectValue.disabled => pureE true
  | RedirectValue.path p =>
    if p = cmpPath then pureE true
    else bindE (navigateTo p) (fun _ => pureE false)
  | RedirectValue.unset => throwE (Err.jsError msg)

/-- Throw unless the endpoint slot is configured (the repeated
`if (options.endpoints.x === undefined) throw` blocks). -/
def requireEndpoint {α : Type} (e : Option String) (msg : String) (k : Exec α) : Exec α :=
  match e with
  | none => throwE (Err.jsError msg)
  | some _ => k

/-- The guard block shared verbatim (up to the error message) by the six
authenticated-only operations, e.g. useSanctumAuth.ts lines 191-204: when
unauthenticated, throw if `redirectIfUnauthenticated` is off; stop returning
`guardReturn` when `onAuthOnly` is `false` or equals the trimmed current path;
throw when `onAuthOnly` is undefined; otherwise navigate to it and fall through
to the operation body `k` (the source has no `return` after `navigateTo`). -/
def authGuard {α : Type} (env : Env) (errMsg : String) (k : Exec α) (guardReturn : α) : Exec α :=
  bindE getState (fun st =>
    if (isAuthenticated st.user : Bool) then k
    else if !env.options.redirectIfUnauthenticated then
      throwE (Err.jsError errMsg)
    else
      bindE (redirectCheck env.options.redirect.onAuthOnly (currentPath st)
          "`sanctum.redirect.onAuthOnly` is not defined")
        (fun stop => if stop then pureE guardReturn else k))

/-- `refreshIdentity` (useSanctumAuth.ts lines 97-99): fetch the user endpoint
and set the cached identity to the response. -/
def refreshIdentity (env : Env) : Exec Unit :=
  bindE (call Event.fetchUser env.backend.userResp)
    (fun u => modifyState (fun st => { st with user := some u }))

/-- `init` (useSanctumAuth.ts lines 85-92): return if the identity-loaded latch
is set; otherwise set the latch synchronously and then await `refreshIdentity`. -/
def init (env : Env) : Exec Unit :=
  bindE getState (fun st =>
    if st.identityLoaded then pureE ()
    else
      bindE (modifyState (fun s => { s with identityLoaded := true }))
        (fun _ => refreshIdentity env))

/-- `enableTwoFactorAuthentication` (lines 190-213): auth guard, then POST to
the `two_factor_enable` endpoint. -/
def enableTwoFactorAuthentication (env : Env) : Exec Unit :=
  authGuard env "Please login to enable 2 Factor Authentication"
    (requireEndpoint env.options.endpoints.two_factor_enable
      "`sanctum.endpoints.two_factor_enable` is not defined"
      (bindE (call Event.postTwoFactorEnable env.backend.enableResp) (fun _ => pureE ())))
    ()

/-- `confirmPassword` (lines 218-242): auth guard, then POST the password to the
`confirm_password` endpoint. -/
def confirmPassword (env : Env) (password : String) : Exec Unit :=
  authGuard env "You must be logged in to perform this action"
    (requireEndpoint env.options.endpoints.confirm_password
      "`sanctum.endpoints.confirm_password` is not defined"
      (bindE (call (Event.postConfirmPassword password) env.backend.confirmPasswordResp)
        (fun _ => pureE ())))
    ()

/-- `twoFactorQrSvg` (lines 247-270): auth guard (whose early return yields
`undefined`, here `none`), then GET the `two_factor_qr_code` endpoint and return
its `{svg?}` payload. -/
def twoFactorQrSvg (env : Env) : Exec (Option (Option String)) :=
  authGuard env "Please login to configure two factor authentication"
    (requireEndpoint env.options.endpoints.two_factor_qr_code
      "`sanctum.endpoints.two_factor_qr_code` is not defined"
      (bindE (call Event.getTwoFactorQr env.backend.qrResp) (fun r => pureE (some r))))
    none

/-- `getRecoveryCodes` (lines 374-397): auth guard (early return `[]`), then GET
the `two_factor_recovery_codes` endpoint. -/
def getRecoveryCodes (env : Env) : Exec (List String) :=
  authGuard env "Please login to retrieve Two Factor recovery codes"
    (requireEndpoint env.options.endpoints.two_factor_recovery_codes
      "`sanctum.endpoints.two_factor_recovery_codes` is not defined"
      (call Event.recoveryCodesGet env.backend.recoveryGetResp))
    []

/-- `regenerateRecoveryCodes` (lines 402-425): auth guard (early return `[]`),
then POST to the `two_factor_recovery_codes` endpoint. -/
def regenerateRecoveryCodes (env : Env) : Exec (List String) :=
  authGuard env "Please login to generate two-factor recovery codes"
    (requireEndpoint env.options.endpoints.two_factor_recovery_codes
      "`sanctum.endpoints.two_factor_recovery_codes` is not defined"
      (call Event.recoveryCodesPost env.backend.recoveryPostResp))
    []

/-- The `keepRequestedRoute` block of `afterLogin` (lines 485-492) and of
`confirmTwoFactorAuthentication` (lines 320-327): when enabled and the current
route query carries a truthy `redirect` value different from the trimmed current
path, that value is the navigation target. -/
def keepRequestedRouteTarget (env : Env) (st : AppState) : Option String :=
  if env.options.redirect.keepRequestedRoute then
    match st.routeQueryRedirect with
    | some rr => if rr = "" then none else if rr = currentPath st then none else some rr
    | none => none
  else none

/-- The token-mode prologue of `afterLogin` (lines 471-481): require the token
storage collaborator, require `response.token`, persist it, then continue. -/
def afterLoginTokenPhase (env : Env) (response : TokenResponse) (k : Exec Unit) : Exec Unit :=
  if env.options.mode = AuthMode.token then
    if !env.tokenStorageDefined then
      throwE (Err.jsError "`sanctum.tokenStorage` is not defined in app.config.ts")
    else
      match response.token with
      | none => throwE (Err.jsError "Token was not returned from the API")
      | some t => bindE (tokenStorageSet (some t)) (fun _ => k)
  else k

/-- `afterLogin` (lines 470-512): token phase, then always `refreshIdentity`;
then the `keepRequestedRoute` navigation; then `if (redirect) return`; otherwise
resolve `onLogin`, comparing it against the raw `currentRoute.value.path`
(line 500, not the trimmed `currentPath`). -/
def afterLogin (env : Env) (response : TokenResponse) (redirect : Bool) : Exec Unit :=
  afterLoginTokenPhase env response
    (bindE (refreshIdentity env) (fun _ =>
      bindE getState (fun st =>
        match keepRequestedRouteTarget env st with
        | some rr => navigateTo rr
        | none =>
          if redirect then pureE ()
          else
            bindE (redirectCheck env.options.redirect.onLogin st.routePath
                "`sanctum.redirect[redirectTo` is not defined")
              (fun _ => pureE ()))))

/-- `handleTwoFactorAuthentication` (lines 148-185): on `two_factor` resolve
`onLoginWithTwoFactor` and stop; otherwise refresh the identity, confirm the
password, enable two-factor, then resolve `onLoginWithConfigureTwoFactor`. -/
def handleTwoFactorAuthentication (env : Env) (password : String) (two_factor : Bool) : Exec Unit :=
  if two_factor then
    bindE getState (fun st =>
      bindE (redirectCheck env.options.redirect.onLoginWithTwoFactor (currentPath st)
          "`sanctum.redirect.onLoginWithTwoFactor` is not defined")
        (fun _ => pureE ()))
  else
    bindE (refreshIdentity env) (fun _ =>
      bindE (confirmPassword env password) (fun _ =>
        bindE (enableTwoFactorAuthentication env) (fun _ =>
          bindE getState (fun st =>
            bindE (redirectCheck env.options.redirect.onLoginWithConfigureTwoFactor
                (currentPath st)
                "`sanctum.redirect.onLoginWithConfigureTwoFactor` is not defined")
              (fun _ => pureE ())))))

/-- Body of `login` from line 128 on: require the login endpoint, POST the
credentials, then branch on `twoFactor.enforce` into
`handleTwoFactorAuthentication` (with `response.two_factor || false`) or
`afterLogin` (with its default `redirect = true`). -/
def loginRequestPhase (env : Env) (credentials : Credentials) : Exec Unit :=
  requireEndpoint env.options.endpoints.login "`sanctum.endpoints.login` is not defined"
    (bindE (call (Event.postLogin credentials) env.backend.loginResp) (fun response =>
      if env.options.twoFactor.enforce then
        handleTwoFactorAuthentication env credentials.password (response.two_factor.getD false)
      else
        afterLogin env response true))

/-- `login` (lines 106-143). When already authenticated: throw unless
`redirectIfAuthenticated`; resolve `onLogin` (whose `false` / current-path cases
return). The source has no `return` after the `navigateTo`, so that branch falls
through to the POST, as does the unauthenticated case. -/
def login (env : Env) (credentials : Credentials) : Exec Unit :=
  bindE getState (fun st =>
    if (isAuthenticated st.user : Bool) then
      if !env.options.redirectIfAuthenticated then
        throwE (Err.jsError "User is already authenticated")
      else
        bindE (redirectCheck env.options.redirect.onLogin (currentPath st)
            "`sanctum.redirect.onLogin` is not defined")
          (fun stop => if stop then pureE () else loginRequestPhase env credentials)
    else loginRequestPhase env credentials)

/-- Body of `twoFactorChallenge` from line 359 on: require the challenge
endpoint, POST the credentials, run `afterLogin` with its default flag. -/
def twoFactorChallengeRequestPhase (env : Env) (credentials : ChallengeCreds) : Exec Unit :=
  requireEndpoint env.options.endpoints.two_factor_challenge
    "`sanctum.endpoints.two_factor_challenge` is not defined"
    (bindE (call (Event.postTwoFactorChallenge credentials) env.backend.challengeResp)
      (fun response => afterLogin env response true))

/-- `twoFactorChallenge` (lines 337-369), with the same already-authenticated
prologue as `login` (again with no `return` after the `navigateTo`). -/
def twoFactorChallenge (env : Env) (credentials : ChallengeCreds) : Exec Unit :=
  bindE getState (fun st =>
    if (isAuthenticated st.user : Bool) then
      if !env.options.redirectIfAuthenticated then
        throwE (Err.jsError "User is already authenticated")
      else
        bindE (redirectCheck env.options.redirect.onLogin (currentPath st)
            "`sanctum.redirect.onLogin` is not defined")
          (fun stop =>
            if stop then pureE () else twoFactorChallengeRequestPhase env credentials)
    else twoFactorChallengeRequestPhase env credentials)

/-- Epilogue of `confirmTwoFactorAuthentication` (lines 311-332): `afterLogin`
with `redirect = !toRecoveryCodesOnConfirmingTwoFactor` (JavaScript truthiness),
then the recovery-codes redirect, whose current-path comparison is against the
raw `currentRoute.value.path` (line 315). The unset case is unreachable here, an
error was thrown at line 300 before this point. -/
def confirmTwoFactorFinishPhase (env : Env) (response : TokenResponse) : Exec Unit :=
  bindE
    (afterLogin env response
      (!truthyRV env.options.redirect.toRecoveryCodesOnConfirmingTwoFactor))
    (fun _ =>
      bindE getState (fun st =>
        match env.options.redirect.toRecoveryCodesOnConfirmingTwoFactor with
        | RedirectValue.unset => pureE ()
        | RedirectValue.disabled => pureE ()
        | RedirectValue.path p =>
          if st.routePath = p then pureE ()
          else
            match keepRequestedRouteTarget env st with
            | some rr => navigateTo rr
            | none => navigateTo p))

/-- `confirmTwoFactorAuthentication` (lines 275-332): auth guard; require the
`two_factor_confirm` endpoint; POST the code; throw if the
`toRecoveryCodesOnConfirmingTwoFactor` slot is undefined; when that slot is
truthy, re-check the `two_factor_confirm` endpoint (lines 305-309); finish. -/
def confirmTwoFactorAuthentication (env : Env) (credentials : ChallengeCreds) : Exec Unit :=
  authGuard env "Please login to confirm two factor authentication"
    (requireEndpoint env.options.endpoints.two_factor_confirm
      "`sanctum.endpoints.two_factor_confirm` is not defined"
      (bindE (call (Event.postTwoFactorConfirm credentials) env.backend.confirmTwoFactorResp)
        (fun response =>
          if env.options.redirect.toRecoveryCodesOnConfirmingTwoFactor = RedirectValue.unset then
            throwE (Err.jsError
              "`sanctum.redirect.toRecoveryCodesOnConfirmingTwoFactor` is not defined. Set it to false if no redirect to recovery codes is required")
          else if truthyRV env.options.redirect.toRecoveryCodesOnConfirmingTwoFactor then
            requireEndpoint env.options.endpoints.two_factor_confirm
              "`sanctum.endpoints.two_factor_confirm` is not defined"
              (confirmTwoFactorFinishPhase env response)
          else confirmTwoFactorFinishPhase env response)))
    ()

/-- The token-mode epilogue of `logout` (lines 443-449): require the token
storage collaborator, clear it, then continue. -/
def logoutTokenPhase (env : Env) (k : Exec Unit) : Exec Unit :=
  if env.options.mode = AuthMode.token then
    if !env.tokenStorageDefined then
      throwE (Err.jsError "`sanctum.tokenStorage` is not defined in app.config.ts")
    else bindE (tokenStorageSet none) (fun _ => k)
  else k

/-- `logout` (lines 430-465): throw when unauthenticated; require the logout
endpoint; POST; clear the cached identity; in token mode clear the storage; then
resolve `onLogout` against the trimmed current path. -/
def logout (env : Env) : Exec Unit :=
  bindE getState (fun st =>
    if !(isAuthenticated st.user) then
      throwE (Err.jsError "User is not authenticated")
    else
      requireEndpoint env.options.endpoints.logout "`sanctum.endpoints.logout` is not defined"
        (bindE (call Event.postLogout env.backend.logoutResp) (fun _ =>
          bindE (modifyState (fun s => { s with user := none })) (fun _ =>
            logoutTokenPhase env
              (bindE getState (fun st2 =>
                bindE (redirectCheck env.options.redirect.onLogout (currentPath st2)
                    "`sanctum.redirect.onLogout` is not defined")
                  (fun _ => pureE ())))))))

/-- Decision returned by a route middleware. -/
inductive MwDecision where
  | proceed
  | errorMsg (msg : String)
  | failure (statusCode : Nat)
  | navigate (path : String) (queryRedirect : Option String) (replace : Bool)
deriving DecidableEq, Repr

/-- The two-factor-only route middleware bundled with useSanctumUser.ts
(lines 20-45 of the claim numbering): pass when the user is authenticated with a
confirmed two-factor; otherwise throw when `onTwoFactorOnly` is undefined,
return a 403 error when it is `false`, and navigate to it (replace) otherwise,
carrying the trimmed requested full path in the `redirect` query when
`keepRequestedRoute` is enabled. It performs no comparison of the target with
the destination path. -/
def twoFactorOnlyMiddleware (cfg : SanctumConfig) (user : Option Identity)
    (toFullPath : String) : MwDecision :=
  if isAuthenticatedWithTwoFactor user then MwDecision.proceed
  else
    match cfg.redirect.onTwoFactorOnly with
    | RedirectValue.unset => MwDecision.errorMsg "`sanctum.redirect.onTwoFactorOnly` is not defined"
    | RedirectValue.disabled => MwDecision.failure 403
    | RedirectValue.path endpoint =>
      if cfg.redirect.keepRequestedRoute then
        MwDecision.navigate endpoint (some (trimTrailingSlash toFullPath)) true
      else MwDecision.navigate endpoint none true

/-- The endpoint defaults of `defaultModuleOptions` in config.ts. -/
def defaultEndpoints : SanctumEndpoints where
  csrf := some "/sanctum/csrf-cookie"
  login := some "/login"
  two_factor_qr_code := some "/user/two-factor-qr-code"
  two_factor_enable := some "/user/two-factor-authentication"
  two_factor_confirm := some "/user/confirmed-two-factor-authentication"
  two_factor_challenge := some "/two-factor-challenge"
  two_factor_recovery_codes := some "/user/two-factor-recovery-codes"
  two_factor_disable := some "/user/two-factor-authentication"
  confirm_password := some "/user/confirm-password"
  logout := some "/logout"
  user := some "/api/user"

/-- The redirect defaults of `defaultModuleOptions` in config.ts. -/
def defaultRedirect : RedirectOptions where
  keepRequestedRoute := false
  onLogin := RedirectValue.path "/"
  onTwoFactorOnly := RedirectValue.path "/two-factor-qr-code"
  onLogout := RedirectValue.path "/"
  onAuthOnly := RedirectValue.path "/login"
  onGuestOnly := RedirectValue.path "/"
  onLoginWithTwoFactor := RedirectValue.path "/two-factor-challenge"
  onLoginWithConfigureTwoFactor := RedirectValue.path "/two-factor-qr-code"
  toRecoveryCodesOnConfirmingTwoFactor := RedirectValue.path "/two-factor-recovery-codes"

/-- `defaultModuleOptions` of config.ts, restricted to the fields the runtime
composables read. -/
def defaultConfig : SanctumConfig where
  mode := AuthMode.cookie
  redirectIfAuthenticated := false
  redirectIfUnauthenticated := false
  twoFactor := { enforce := false, confirm := true, confirmPassword := true }
  endpoints := defaultEndpoints
  redirect := defaultRedirect

/-- A sample identity returned by the user endpoint in concrete executions. -/
def sampleUser : Identity where
  id := 7
  name := "Jane Doe"
  email := "jane@example.test"
  email_verified_at := some "2024-01-01T00:00:00Z"
  two_factor_confirmed_at := none
  created_at := "2024-01-01T00:00:00Z"
  updated_at := "2024-01-01T00:00:00Z"

/-- A backend where every endpoint succeeds with simple data. -/
def happyBackend : Backend where
  loginResp := Except.ok { token := none, two_factor := none }
  challengeResp := Except.ok { token := none, two_factor := none }
  confirmTwoFactorResp := Except.ok { token := none, two_factor := none }
  userResp := Except.ok sampleUser
  qrResp := Except.ok (some "<svg/>")
  recoveryGetResp := Except.ok ["code-one", "code-two"]
  recoveryPostResp := Except.ok ["code-three", "code-four"]
  confirmPasswordResp := Except.ok ()
  enableResp := Except.ok ()
  logoutResp := Except.ok ()

/-- Program counter of one `init()` caller in the same-tick interleaving model of
useSanctumAuth.ts lines 85-92: `start` is before the synchronous segment (latch
check, latch set, fetch issue), `fetching` is suspended at `await
refreshIdentity()`, `done` is returned. -/
inductive InitPC where
  | start
  | fetching
  | done
deriving DecidableEq, Repr

/-- Joint state of two same-tick `init()` callers: their program counters, the
shared `isIdentityLoaded` latch, and how many identity fetches were issued. -/
structure InitRace where
  pcA : InitPC
  pcB : InitPC
  latch : Bool
  fetches : Nat
deriving DecidableEq, Repr

/-- One cooperative step of the chosen caller (`true` steps A), mirroring the
body of `init`. The segment from the latch check through `isIdentityLoaded.value
= true` and the issue of the fetch is synchronous, hence atomic in the
single-threaded model; the second segment is the resumption after the awaited
fetch resolves. -/
def initStep (isA : Bool) (s : InitRace) : InitRace :=
  let pc := if isA then s.pcA else s.pcB
  let withPC := fun (s' : InitRace) (pc' : InitPC) =>
    if isA then { s' with pcA := pc' } else { s' with pcB := pc' }
  match pc with
  | InitPC.start =>
    if s.latch then withPC s InitPC.done
    else withPC { s with latch := true, fetches := s.fetches + 1 } InitPC.fetching
  | InitPC.fetching => withPC s InitPC.done
  | InitPC.done => s

/-- Run a cooperative schedule (a list of caller choices) from a race state. -/
def runRace (sched : List Bool) (s : InitRace) : InitRace :=
  match sched with
  | [] => s
  | c :: rest => runRace rest (initStep c s)

/-- The initial race state: both callers about to enter `init()`, latch unset. -/
def initRace0 : InitRace where
  pcA := InitPC.start
  pcB := InitPC.start
  latch := false
  fetches := 0

/-- An unauthenticated session sitting on the login page. -/
def stGuest : AppState where
  user := none
  identityLoaded := true
  tokenStorage := none
  routePath := "/login"
  routeQueryRedirect := none

/-- An unauthenticated session on a profile page. -/
def stProfileGuest : AppState :=
  { stGuest with routePath := "/profile" }

/-- An authenticated session on the login page. -/
def stAuthed : AppState :=
  { stGuest with user := some sampleUser }

/-- Token-mode environment with `onLogin = "/dashboard"` whose login endpoint
answers `{token: "abc"}`. -/
def envTokenDash : Env where
  options := { defaultConfig with
    mode := AuthMode.token,
    redirect := { defaultRedirect with onLogin := RedirectValue.path "/dashboard" } }
  tokenStorageDefined := true
  backend := { happyBackend with
    loginResp := Except.ok { token := some "abc", two_factor := none } }

/-- Cookie-mode environment with `redirectIfAuthenticated` enabled and
`onLogin = "/dashboard"`. -/
def envAuthedDash : Env where
  options := { defaultConfig with
    redirectIfAuthenticated := true,
    redirect := { defaultRedirect with onLogin := RedirectValue.path "/dashboard" } }
  tokenStorageDefined := false
  backend := happyBackend

/-- Cookie-mode environment with `redirectIfUnauthenticated` enabled and the
default `onAuthOnly = "/login"`. -/
def envRedirUnauth : Env where
  options := { defaultConfig with redirectIfUnauthenticated := true }
  tokenStorageDefined := false
  backend := happyBackend

/-- Like `envRedirUnauth` but with `onAuthOnly` set to `false`. -/
def envAuthOnlyFalse : Env where
  options := { defaultConfig with
    redirectIfUnauthenticated := true,
    redirect := { defaultRedirect with onAuthOnly := RedirectValue.disabled } }
  tokenStorageDefined := false
  backend := happyBackend

/-- Configuration with `onTwoFactorOnly` set to `false`. -/
def cfgTwoFactorOnlyFalse : SanctumConfig :=
  { defaultConfig with redirect :=
    { defaultRedirect with onTwoFactorOnly := RedirectValue.disabled } }

/-- Environment enforcing two-factor whose login endpoint answers
`{twoFactor: true}`. -/
def envEnforce2FA : Env where
  options := { defaultConfig with
    twoFactor := { enforce := true, confirm := true, confirmPassword := true } }
  tokenStorageDefined := false
  backend := { happyBackend with
    loginResp := Except.ok { token := none, two_factor := some true } }

/-- Environment enforcing two-factor whose login endpoint answers
`{twoFactor: false}`. -/
def envEnforceConfigure : Env :=
  { envEnforce2FA with backend := { happyBackend with
    loginResp := Except.ok { token := none, two_factor := some false } } }

/-- Cookie-mode environment with `onLogin = "/home"`. -/
def envHomeOnLogin : Env where
  options := { defaultConfig with
    redirect := { defaultRedirect with onLogin := RedirectValue.path "/home" } }
  tokenStorageDefined := false
  backend := happyBackend

/-- An unauthenticated session whose current route path carries a trailing
slash. -/
def stHomeSlash : AppState :=
  { stGuest with routePath := "/home/" }

/-- Token-mode environment whose login endpoint answers without a token. -/
def envTokenNoToken : Env where
  options := { defaultConfig with mode := AuthMode.token }
  tokenStorageDefined := true
  backend := { happyBackend with
    loginResp := Except.ok { token := none, two_factor := none } }

/-- Environment whose user endpoint rejects with an HTTP error. -/
def envUserFail : Env where
  options := defaultConfig
  tokenStorageDefined := false
  backend := { happyBackend with userResp := Except.error (Err.jsError "HTTP 500") }

/-- Claim C1. The claimed scenario — token-mode login, response
`{token:"abc"}`, `onLogin = "/dashboard"`, `keepRequestedRoute` off, current
path `/login` — persists the token and fetches the identity, but performs no
navigation at all: the trace is exactly the POST, the token write and the
identity fetch, with no navigate event. `afterLogin` reaches
`if (redirect) return` (useSanctumAuth.ts line 494) with its default
`redirect = true` and returns before the `onLogin` resolution, so the claimed
navigation to `/dashboard` never happens. -/
theorem c1_token_login_skips_onLogin_redirect :
    login envTokenDash { password := "pw" } stGuest =
      Res.ok { stGuest with user := some sampleUser, tokenStorage := some "abc" }
        [Event.postLogin { password := "pw" }, Event.tokenSet (some "abc"), Event.fetchUser] ()
    ∧ List.filter isNavigate
        [Event.postLogin { password := "pw" }, Event.tokenSet (some "abc"), Event.fetchUser]
      = [] := by
  exact ⟨by decide, by decide⟩

/-- Claim C2. With `redirectIfAuthenticated` enabled, `onLogin = "/dashboard"`
and the current path `/login`, calling `login()` (respectively
`twoFactorChallenge()`) while authenticated navigates to `/dashboard` and then
STILL issues the POST to the login (respectively challenge) endpoint: the guard
block has no `return` after `navigateTo` (useSanctumAuth.ts lines 123-126 and
354-357), so it falls through to the request. -/
theorem c2_authenticated_login_still_posts :
    login envAuthedDash { password := "pw" } stAuthed =
      Res.ok { stAuthed with user := some sampleUser, routePath := "/dashboard" }
        [Event.navigate "/dashboard", Event.postLogin { password := "pw" }, Event.fetchUser] ()
    ∧ twoFactorChallenge envAuthedDash { code := some "123456", recovery_code := none } stAuthed =
      Res.ok { stAuthed with user := some sampleUser, routePath := "/dashboard" }
        [Event.navigate "/dashboard",
         Event.postTwoFactorChallenge { code := some "123456", recovery_code := none },
         Event.fetchUser] () := by
  exact ⟨by decide, by decide⟩

/-- Claim C3. With `redirectIfUnauthenticated` enabled, `onAuthOnly = "/login"`
and the current path `/profile`, every authenticated-only operation invoked
while unauthenticated navigates to `/login` and then STILL performs its own
network call: none of the six guard blocks has a `return` after `navigateTo`
(useSanctumAuth.ts lines 201-204, 229-232, 258-261, 286-289, 385-388, 413-416). -/
theorem c3_unauthenticated_guard_still_calls_network :
    enableTwoFactorAuthentication envRedirUnauth stProfileGuest =
      Res.ok { stProfileGuest with routePath := "/login" }
        [Event.navigate "/login", Event.postTwoFactorEnable] ()
    ∧ confirmPassword envRedirUnauth "pw" stProfileGuest =
      Res.ok { stProfileGuest with routePath := "/login" }
        [Event.navigate "/login", Event.postConfirmPassword "pw"] ()
    ∧ twoFactorQrSvg envRedirUnauth stProfileGuest =
      Res.ok { stProfileGuest with routePath := "/login" }
        [Event.navigate "/login", Event.getTwoFactorQr] (some (some "<svg/>"))
    ∧ confirmTwoFactorAuthentication envRedirUnauth
        { code := some "123456", recovery_code := none } stProfileGuest =
      Res.ok { stProfileGuest with
          user := some sampleUser, routePath := "/two-factor-recovery-codes" }
        [Event.navigate "/login",
         Event.postTwoFactorConfirm { code := some "123456", recovery_code := none },
         Event.fetchUser, Event.navigate "/", Event.navigate "/two-factor-recovery-codes"] ()
    ∧ getRecoveryCodes envRedirUnauth stProfileGuest =
      Res.ok { stProfileGuest with routePath := "/login" }
        [Event.navigate "/login", Event.recoveryCodesGet] ["code-one", "code-two"]
    ∧ regenerateRecoveryCodes envRedirUnauth stProfileGuest =
      Res.ok { stProfileGuest with routePath := "/login" }
        [Event.navigate "/login", Event.recoveryCodesPost] ["code-three", "code-four"] := by
  exact ⟨by decide, by decide, by decide, by decide, by decide, by decide⟩

/-- Claim C4, counterexample. An unauthenticated invocation of
`enableTwoFactorAuthentication` with `redirectIfUnauthenticated` enabled and
`onAuthOnly = false` does NOT result in Forbidden: the guard returns silently
(useSanctumAuth.ts lines 195-197), yielding a normal completion with no error,
no navigation and no network call. -/
theorem c4_counterexample_onAuthOnly_false_silent :
    enableTwoFactorAuthentication envAuthOnlyFalse stProfileGuest =
      Res.ok stProfileGuest [] () := by
  decide

/-- Claim C4 as amended: with a `*Only` key set to `false`, only the
two-factor-only route guard yields Forbidden (HTTP 403) without navigation;
an unauthenticated authenticated-only operation with
`redirectIfUnauthenticated` enabled and `onAuthOnly = false` instead returns
early as a silent no-op — no error, no navigation, no network call. -/
theorem c4_star_only_false_resolution :
    (∀ (cfg : SanctumConfig) (user : Option Identity) (toPath : String),
      isAuthenticatedWithTwoFactor user = false →
      cfg.redirect.onTwoFactorOnly = RedirectValue.disabled →
      twoFactorOnlyMiddleware cfg user toPath = MwDecision.failure 403)
    ∧ (∀ (env : Env) (st : AppState),
      st.user = none →
      env.options.redirectIfUnauthenticated = true →
      env.options.redirect.onAuthOnly = RedirectValue.disabled →
      enableTwoFactorAuthentication env st = Res.ok st [] ()) := by
  constructor
  · intro cfg user toPath h2fa hcfg
    simp [twoFactorOnlyMiddleware, h2fa, hcfg]
  · intro env st hu hredir hcfg
    simp [enableTwoFactorAuthentication, authGuard, bindE, getState, isAuthenticated, hu,
      hredir, redirectCheck, hcfg, pureE]

/-- Witness for the amended claim C4 at concrete inputs. -/
theorem c4_star_only_false_witness :
    twoFactorOnlyMiddleware cfgTwoFactorOnlyFalse (some sampleUser) "/secret"
        = MwDecision.failure 403
    ∧ enableTwoFactorAuthentication envAuthOnlyFalse stGuest = Res.ok stGuest [] () := by
  exact ⟨c4_star_only_false_resolution.1 cfgTwoFactorOnlyFalse (some sampleUser) "/secret"
      (by decide) (by decide),
    c4_star_only_false_resolution.2 envAuthOnlyFalse stGuest rfl (by decide) (by decide)⟩

/-- Claim C5. Any unauthenticated `login()` under `twoFactor.enforce = true`
whose login response carries `twoFactor = true`, with `onLoginWithTwoFactor`
configured to a path different from the trimmed current path, POSTs the
credentials and navigates to that path; `refreshIdentity` is never called (no
user fetch in the trace) and the cached identity is untouched (the final state
keeps `st.user`). -/
theorem c5_enforced_two_factor_redirect (env : Env) (creds : Credentials) (st : AppState)
    (r : TokenResponse) (l p : String)
    (hu : st.user = none)
    (henf : env.options.twoFactor.enforce = true)
    (hl : env.options.endpoints.login = some l)
    (hr : env.backend.loginResp = Except.ok r)
    (h2 : r.two_factor = some true)
    (hp : env.options.redirect.onLoginWithTwoFactor = RedirectValue.path p)
    (hne : p ≠ trimTrailingSlash st.routePath) :
    login env creds st =
      Res.ok { st with routePath := p, routeQueryRedirect := none }
        [Event.postLogin creds, Event.navigate p] () := by
  simp [login, bindE, getState, isAuthenticated, hu, loginRequestPhase, requireEndpoint, hl,
    call, hr, henf, handleTwoFactorAuthentication, h2, redirectCheck, hp, currentPath, hne,
    navigateTo, pureE]

/-- Witness for claim C5 at concrete inputs. -/
theorem c5_enforced_two_factor_redirect_witness :
    login envEnforce2FA { password := "pw" } stGuest =
      Res.ok { stGuest with routePath := "/two-factor-challenge", routeQueryRedirect := none }
        [Event.postLogin { password := "pw" }, Event.navigate "/two-factor-challenge"] () := by
  exact c5_enforced_two_factor_redirect envEnforce2FA { password := "pw" } stGuest
    { token := none, two_factor := some true } "/login" "/two-factor-challenge"
    rfl rfl rfl rfl rfl rfl (by decide)

/-- Claim C6. Any unauthenticated `login()` under `twoFactor.enforce = true`
whose login response carries a falsy `twoFactor`, with
`onLoginWithConfigureTwoFactor` configured to a path different from the trimmed
current path, performs in this exact order: the login POST, the identity fetch,
the password confirmation POST with the original password, the two-factor
enable POST, and finally the navigation to the configured target. -/
theorem c6_enforced_configure_flow (env : Env) (creds : Credentials) (st : AppState)
    (r : TokenResponse) (u : Identity) (l cp te p : String)
    (hu : st.user = none)
    (henf : env.options.twoFactor.enforce = true)
    (hl : env.options.endpoints.login = some l)
    (hr : env.backend.loginResp = Except.ok r)
    (h2 : r.two_factor.getD false = false)
    (huser : env.backend.userResp = Except.ok u)
    (hcp : env.options.endpoints.confirm_password = some cp)
    (hcpr : env.backend.confirmPasswordResp = Except.ok ())
    (hte : env.options.endpoints.two_factor_enable = some te)
    (hter : env.backend.enableResp = Except.ok ())
    (hp : env.options.redirect.onLoginWithConfigureTwoFactor = RedirectValue.path p)
    (hne : p ≠ trimTrailingSlash st.routePath) :
    login env creds st =
      Res.ok { st with user := some u, routePath := p, routeQueryRedirect := none }
        [Event.postLogin creds, Event.fetchUser, Event.postConfirmPassword creds.password,
         Event.postTwoFactorEnable, Event.navigate p] () := by
  simp [login, bindE, getState, isAuthenticated, hu, loginRequestPhase, requireEndpoint, hl,
    call, hr, henf, handleTwoFactorAuthentication, h2, refreshIdentity, huser, modifyState,
    confirmPassword, authGuard, hcp, hcpr, enableTwoFactorAuthentication, hte, hter,
    redirectCheck, hp, currentPath, hne, navigateTo, pureE]

/-- Witness for claim C6 at concrete inputs. -/
theorem c6_enforced_configure_flow_witness :
    login envEnforceConfigure { password := "pw" } stGuest =
      Res.ok { stGuest with
          user := some sampleUser, routePath := "/two-factor-qr-code",
          routeQueryRedirect := none }
        [Event.postLogin { password := "pw" }, Event.fetchUser,
         Event.postConfirmPassword "pw", Event.postTwoFactorEnable,
         Event.navigate "/two-factor-qr-code"] () := by
  exact c6_enforced_configure_flow envEnforceConfigure { password := "pw" } stGuest
    { token := none, two_factor := some false } sampleUser
    "/login" "/user/confirm-password" "/user/two-factor-authentication" "/two-factor-qr-code"
    rfl rfl rfl rfl rfl rfl rfl rfl rfl rfl rfl (by decide)

/-- Environment with `redirectIfAuthenticated` enabled and `onLogin` equal to
the login page itself. -/
def envSelfLogin : Env where
  options := { defaultConfig with
    redirectIfAuthenticated := true,
    redirect := { defaultRedirect with onLogin := RedirectValue.path "/login" } }
  tokenStorageDefined := false
  backend := happyBackend

/-- Cookie-mode environment whose `onLogout` equals the current page. -/
def envSelfLogout : Env where
  options := { defaultConfig with
    redirect := { defaultRedirect with onLogout := RedirectValue.path "/login" } }
  tokenStorageDefined := false
  backend := happyBackend

/-- Two-factor-enforcing environment whose `onLoginWithTwoFactor` equals the
current page. -/
def envEnforce2FASelf : Env :=
  { envEnforce2FA with options := { envEnforce2FA.options with
    redirect := { defaultRedirect with onLoginWithTwoFactor := RedirectValue.path "/login" } } }

/-- Two-factor-enforcing environment whose `onLoginWithConfigureTwoFactor`
equals the current page. -/
def envEnforceConfSelf : Env :=
  { envEnforceConfigure with options := { envEnforceConfigure.options with
    redirect := { defaultRedirect with
      onLoginWithConfigureTwoFactor := RedirectValue.path "/login" } } }

/-- Claim C7, counterexample. Two resolution sites navigate although the
configured target equals the normalized current path. First, `afterLogin`
compares `onLogin` against the raw `currentRoute.value.path` (useSanctumAuth.ts
line 500): on the path `/home/` with `onLogin = "/home"` it navigates to
`/home` even though the normalized current path equals the target. Second, the
two-factor-only route guard performs no current-path comparison at all and
re-issues a navigation to its own target `/two-factor-qr-code`. -/
theorem c7_counterexample_unnormalized_sites :
    afterLogin envHomeOnLogin { token := none, two_factor := none } false stHomeSlash =
      Res.ok { stHomeSlash with
          user := some sampleUser, routePath := "/home", routeQueryRedirect := none }
        [Event.fetchUser, Event.navigate "/home"] ()
    ∧ trimTrailingSlash "/home/" = "/home"
    ∧ twoFactorOnlyMiddleware defaultConfig (some sampleUser) "/two-factor-qr-code" =
        MwDecision.navigate "/two-factor-qr-code" none true := by
  exact ⟨by decide, by decide, by decide⟩

/-- Claim C7 as amended: at every site that compares a redirect key against the
trimmed current path, equality makes the resolution a no-op with no navigation
— the `onLogin` check of `login()` and `twoFactorChallenge()`, the `onLogout`
check of `logout()`, the `onAuthOnly` check of the guarded operations, and the
two keys of `handleTwoFactorAuthentication`. The `onLogin` site inside
`afterLogin` and the `toRecoveryCodesOnConfirmingTwoFactor` site compare the
raw (unnormalized) route path instead, and the two-factor-only guard performs
no current-path check, so for those sites the no-op only holds on exact string
equality (see the counterexample). -/
theorem c7_self_path_noop :
    (∀ (env : Env) (creds : Credentials) (st : AppState) (u : Identity) (p : String),
      st.user = some u →
      env.options.redirectIfAuthenticated = true →
      env.options.redirect.onLogin = RedirectValue.path p →
      p = trimTrailingSlash st.routePath →
      login env creds st = Res.ok st [] ())
    ∧ (∀ (env : Env) (creds : ChallengeCreds) (st : AppState) (u : Identity) (p : String),
      st.user = some u →
      env.options.redirectIfAuthenticated = true →
      env.options.redirect.onLogin = RedirectValue.path p →
      p = trimTrailingSlash st.routePath →
      twoFactorChallenge env creds st = Res.ok st [] ())
    ∧ (∀ (env : Env) (st : AppState) (u : Identity) (l p : String),
      st.user = some u →
      env.options.mode = AuthMode.cookie →
      env.options.endpoints.logout = some l →
      env.backend.logoutResp = Except.ok () →
      env.options.redirect.onLogout = RedirectValue.path p →
      p = trimTrailingSlash st.routePath →
      logout env st = Res.ok { st with user := none } [Event.postLogout] ())
    ∧ (∀ (env : Env) (st : AppState) (p : String),
      st.user = none →
      env.options.redirectIfUnauthenticated = true →
      env.options.redirect.onAuthOnly = RedirectValue.path p →
      p = trimTrailingSlash st.routePath →
      enableTwoFactorAuthentication env st = Res.ok st [] ()
      ∧ getRecoveryCodes env st = Res.ok st [] [])
    ∧ (∀ (env : Env) (creds : Credentials) (st : AppState) (r : TokenResponse) (l p : String),
      st.user = none →
      env.options.twoFactor.enforce = true →
      env.options.endpoints.login = some l →
      env.backend.loginResp = Except.ok r →
      r.two_factor = some true →
      env.options.redirect.onLoginWithTwoFactor = RedirectValue.path p →
      p = trimTrailingSlash st.routePath →
      login env creds st = Res.ok st [Event.postLogin creds] ())
    ∧ (∀ (env : Env) (creds : Credentials) (st : AppState) (r : TokenResponse) (u : Identity)
        (l cp te p : String),
      st.user = none →
      env.options.twoFactor.enforce = true →
      env.options.endpoints.login = some l →
      env.backend.loginResp = Except.ok r →
      r.two_factor.getD false = false →
      env.backend.userResp = Except.ok u →
      env.options.endpoints.confirm_password = some cp →
      env.backend.confirmPasswordResp = Except.ok () →
      env.options.endpoints.two_factor_enable = some te →
      env.backend.enableResp = Except.ok () →
      env.options.redirect.onLoginWithConfigureTwoFactor = RedirectValue.path p →
      p = trimTrailingSlash st.routePath →
      login env creds st =
        Res.ok { st with user := some u }
          [Event.postLogin creds, Event.fetchUser, Event.postConfirmPassword creds.password,
           Event.postTwoFactorEnable] ()) := by
  refine ⟨?_, ?_, ?_, ?_, ?_, ?_⟩
  · intro env creds st u p hu hra hkey hpe
    simp [login, bindE, getState, isAuthenticated, hu, hra, redirectCheck, hkey, currentPath,
      hpe, pureE]
  · intro env creds st u p hu hra hkey hpe
    simp [twoFactorChallenge, bindE, getState, isAuthenticated, hu, hra, redirectCheck, hkey,
      currentPath, hpe, pureE]
  · intro env st u l p hu hmode hl hresp hkey hpe
    simp [logout, bindE, getState, isAuthenticated, hu, requireEndpoint, hl, call, hresp,
      modifyState, logoutTokenPhase, hmode, redirectCheck, hkey, currentPath, hpe, pureE]
  · intro env st p hu hru hkey hpe
    constructor
    · simp [enableTwoFactorAuthentication, authGuard, bindE, getState, isAuthenticated, hu,
        hru, redirectCheck, hkey, currentPath, hpe, pureE]
    · simp [getRecoveryCodes, authGuard, bindE, getState, isAuthenticated, hu,
        hru, redirectCheck, hkey, currentPath, hpe, pureE]
  · intro env creds st r l p hu henf hl hr h2 hkey hpe
    simp [login, bindE, getState, isAuthenticated, hu, loginRequestPhase, requireEndpoint, hl,
      call, hr, henf, handleTwoFactorAuthentication, h2, redirectCheck, hkey, currentPath,
      hpe, pureE]
  · intro env creds st r u l cp te p hu henf hl hr h2 huser hcp hcpr hte hter hkey hpe
    simp [login, bindE, getState, isAuthenticated, hu, loginRequestPhase, requireEndpoint, hl,
      call, hr, henf, handleTwoFactorAuthentication, h2, refreshIdentity, huser, modifyState,
      confirmPassword, authGuard, hcp, hcpr, enableTwoFactorAuthentication, hte, hter,
      redirectCheck, hkey, currentPath, hpe, pureE]

/-- Witness for the amended claim C7, instantiating every conjunct at concrete
inputs whose configured target equals the trimmed current path. -/
theorem c7_self_path_noop_witness :
    login envSelfLogin { password := "pw" } stAuthed = Res.ok stAuthed [] ()
    ∧ twoFactorChallenge envSelfLogin { code := some "1", recovery_code := none } stAuthed =
        Res.ok stAuthed [] ()
    ∧ logout envSelfLogout stAuthed = Res.ok { stAuthed with user := none } [Event.postLogout] ()
    ∧ enableTwoFactorAuthentication envRedirUnauth stGuest = Res.ok stGuest [] ()
    ∧ getRecoveryCodes envRedirUnauth stGuest = Res.ok stGuest [] []
    ∧ login envEnforce2FASelf { password := "pw" } stGuest =
        Res.ok stGuest [Event.postLogin { password := "pw" }] ()
    ∧ login envEnforceConfSelf { password := "pw" } stGuest =
        Res.ok { stGuest with user := some sampleUser }
          [Event.postLogin { password := "pw" }, Event.fetchUser,
           Event.postConfirmPassword "pw", Event.postTwoFactorEnable] () := by
  have h4 := c7_self_path_noop.2.2.2.1 envRedirUnauth stGuest "/login" rfl rfl rfl (by decide)
  exact ⟨c7_self_path_noop.1 envSelfLogin { password := "pw" } stAuthed sampleUser "/login"
      rfl rfl rfl (by decide),
    c7_self_path_noop.2.1 envSelfLogin { code := some "1", recovery_code := none } stAuthed
      sampleUser "/login" rfl rfl rfl (by decide),
    c7_self_path_noop.2.2.1 envSelfLogout stAuthed sampleUser "/logout" "/login"
      rfl rfl rfl rfl rfl (by decide),
    h4.1, h4.2,
    c7_self_path_noop.2.2.2.2.1 envEnforce2FASelf { password := "pw" } stGuest
      { token := none, two_factor := some true } "/login" "/login"
      rfl rfl rfl rfl rfl rfl (by decide),
    c7_self_path_noop.2.2.2.2.2 envEnforceConfSelf { password := "pw" } stGuest
      { token := none, two_factor := some false } sampleUser
      "/login" "/user/confirm-password" "/user/two-factor-authentication" "/login"
      rfl rfl rfl rfl rfl rfl rfl rfl rfl rfl rfl (by decide)⟩

/-- One step of a caller preserves the race invariant: the number of issued
fetches is 1 when the latch is set and 0 otherwise. -/
theorem initStep_fetches_inv (c : Bool) (s : InitRace)
    (h : s.fetches = if s.latch then 1 else 0) :
    (initStep c s).fetches = if (initStep c s).latch then 1 else 0 := by
  cases c <;> cases hA : s.pcA <;> cases hB : s.pcB <;> cases hl : s.latch <;>
    simp_all [initStep]

/-- Any schedule preserves the race invariant. -/
theorem runRace_fetches_inv (sched : List Bool) (s : InitRace)
    (h : s.fetches = if s.latch then 1 else 0) :
    (runRace sched s).fetches = if (runRace sched s).latch then 1 else 0 := by
  induction sched generalizing s with
  | nil => simpa [runRace] using h
  | cons c rest ih => simpa [runRace] using ih (initStep c s) (initStep_fetches_inv c s h)

/-- The latch is never cleared. -/
theorem initStep_latch_mono (c : Bool) (s : InitRace) (h : s.latch = true) :
    (initStep c s).latch = true := by
  cases c <;> cases hA : s.pcA <;> cases hB : s.pcB <;> simp_all [initStep]

/-- The latch stays set along any schedule. -/
theorem runRace_latch_mono (sched : List Bool) (s : InitRace) (h : s.latch = true) :
    (runRace sched s).latch = true := by
  induction sched generalizing s with
  | nil => simpa [runRace] using h
  | cons c rest ih => simpa [runRace] using ih (initStep c s) (initStep_latch_mono c s h)

/-- Claim C8. Two `init()` callers interleaved in the same execution turn
trigger at most one identity fetch, and exactly one as soon as either caller
has taken a step: the latch is flipped in the same synchronous segment that
checks it and issues the fetch, so whichever caller runs first claims the
fetch. On the one-shot embedding, a caller who observes the latch returns
without any fetch, and a caller who does not observe it flips the latch
before `refreshIdentity` runs. -/
theorem c8_init_single_fetch :
    (∀ sched : List Bool, (runRace sched initRace0).fetches ≤ 1)
    ∧ (∀ sched : List Bool, sched ≠ [] → (runRace sched initRace0).fetches = 1)
    ∧ (∀ (env : Env) (st : AppState), st.identityLoaded = true →
        init env st = Res.ok st [] ())
    ∧ (∀ (env : Env) (st : AppState), st.identityLoaded = false →
        init env st = refreshIdentity env { st with identityLoaded := true }) := by
  refine ⟨?_, ?_, ?_, ?_⟩
  · intro sched
    have h := runRace_fetches_inv sched initRace0 (by decide)
    rw [h]
    split <;> simp
  · intro sched hne
    match sched with
    | c :: rest =>
      have hstep : (initStep c initRace0).latch = true ∧ (initStep c initRace0).fetches = 1 := by
        cases c <;> exact ⟨by decide, by decide⟩
      have h := runRace_fetches_inv rest (initStep c initRace0)
        (by rw [hstep.2, hstep.1]; simp)
      have hl := runRace_latch_mono rest (initStep c initRace0) hstep.1
      simpa [runRace, hl] using h
  · intro env st h
    simp [init, bindE, getState, h, pureE]
  · intro env st h
    cases h2 : refreshIdentity env { st with identityLoaded := true } <;>
      simp [init, bindE, getState, modifyState, h, h2]

/-- Witness for claim C8 at concrete inputs: the same-tick schedule where A
starts and B runs before the fetch resolves issues a single fetch. -/
theorem c8_init_single_fetch_witness :
    (runRace [true, false] initRace0).fetches = 1
    ∧ init envUserFail stGuest = Res.ok stGuest [] ()
    ∧ init envUserFail { stGuest with identityLoaded := false } =
        refreshIdentity envUserFail
          { { stGuest with identityLoaded := false } with identityLoaded := true } := by
  exact ⟨c8_init_single_fetch.2.1 [true, false] (by decide),
    c8_init_single_fetch.2.2.1 envUserFail stGuest rfl,
    c8_init_single_fetch.2.2.2 envUserFail { stGuest with identityLoaded := false } rfl⟩

/-- Claim C9. In token mode (with the storage collaborator defined), any
`afterLogin` on a response without a token — however it was reached and with
either redirect flag — throws the token-missing error with an empty trace: no
identity fetch happens and the state (in particular the cached identity) is
unchanged. The second conjunct shows the same through a full `login()` run. -/
theorem c9_token_missing_aborts :
    (∀ (env : Env) (response : TokenResponse) (redirect : Bool) (st : AppState),
      env.options.mode = AuthMode.token →
      env.tokenStorageDefined = true →
      response.token = none →
      afterLogin env response redirect st =
        Res.thrown st [] (Err.jsError "Token was not returned from the API"))
    ∧ (∀ (env : Env) (creds : Credentials) (st : AppState) (r : TokenResponse) (l : String),
      st.user = none →
      env.options.twoFactor.enforce = false →
      env.options.endpoints.login = some l →
      env.backend.loginResp = Except.ok r →
      r.token = none →
      env.options.mode = AuthMode.token →
      env.tokenStorageDefined = true →
      login env creds st =
        Res.thrown st [Event.postLogin creds]
          (Err.jsError "Token was not returned from the API")) := by
  constructor
  · intro env response redirect st hmode hts htok
    simp [afterLogin, afterLoginTokenPhase, hmode, hts, htok, throwE]
  · intro env creds st r l hu henf hl hr htok hmode hts
    simp [login, bindE, getState, isAuthenticated, hu, loginRequestPhase, requireEndpoint, hl,
      call, hr, henf, afterLogin, afterLoginTokenPhase, hmode, hts, htok, throwE]

/-- Witness for claim C9 at concrete inputs. -/
theorem c9_token_missing_aborts_witness :
    afterLogin envTokenNoToken { token := none, two_factor := none } true stGuest =
      Res.thrown stGuest [] (Err.jsError "Token was not returned from the API")
    ∧ login envTokenNoToken { password := "pw" } stGuest =
      Res.thrown stGuest [Event.postLogin { password := "pw" }]
        (Err.jsError "Token was not returned from the API") := by
  exact ⟨c9_token_missing_aborts.1 envTokenNoToken { token := none, two_factor := none }
      true stGuest rfl rfl rfl,
    c9_token_missing_aborts.2 envTokenNoToken { password := "pw" } stGuest
      { token := none, two_factor := none } "/login" rfl rfl rfl rfl rfl rfl rfl⟩

/-- Claim C10. When the latch is unset and the identity fetch rejects, `init`
propagates that error with the latch left set and the cached identity (and the
rest of the state) unchanged; and any `init` on a state with the latch set
returns immediately with no events — so after the failed first call, no later
`init` ever retries the fetch. -/
theorem c10_failed_init_keeps_latch :
    (∀ (env : Env) (st : AppState) (e : Err),
      st.identityLoaded = false →
      env.backend.userResp = Except.error e →
      init env st = Res.thrown { st with identityLoaded := true } [Event.fetchUser] e)
    ∧ (∀ (env : Env) (st : AppState), st.identityLoaded = true →
        init env st = Res.ok st [] ()) := by
  constructor
  · intro env st e h huser
    simp [init, bindE, getState, h, modifyState, refreshIdentity, call, huser]
  · intro env st h
    simp [init, bindE, getState, h, pureE]

/-- Witness for claim C10 at concrete inputs: the user endpoint rejects with an
HTTP 500 error. -/
theorem c10_failed_init_keeps_latch_witness :
    init envUserFail { stGuest with identityLoaded := false } =
      Res.thrown { { stGuest with identityLoaded := false } with identityLoaded := true }
        [Event.fetchUser] (Err.jsError "HTTP 500")
    ∧ init envUserFail stAuthed = Res.ok stAuthed [] () := by
  exact ⟨c10_failed_init_keeps_latch.1 envUserFail { stGuest with identityLoaded := false }
      (Err.jsError "HTTP 500") rfl rfl,
    c10_failed_init_keeps_latch.2 envUserFail stAuthed rfl⟩

end Sanctum
